import Mathlib

/-!
Shallow embedding of the RedditArchiver orchestration core
(src/app.py, src/config.py, src/controllers.py), together with
theorems checking the natural-language specification against it.

Conventions of the embedding:
* Python strings that are only compared or serialized stay `String`;
  strings that are scanned character by character (URLs, submission
  inputs) are `List Char`.
* Python floats (UTC timestamps, averages) are modelled as `ℚ`.
* Python `int(x)` truncation toward zero is `pyInt`.
* Side effects (datastore writes, thread dispatch, file removal) are
  modelled by returning the new state / the list of dispatched workers.
* A Python function that can raise returns `Except String _`.
-/

/-- Python `int(x)` on a float/rational: truncation toward zero.
`Int.tdiv` is T-division, which truncates toward zero, and `q.den > 0`. -/
def pyInt (q : ℚ) : ℤ := q.num.tdiv q.den

/-- On nonnegative rationals, Python truncation agrees with the floor. -/
theorem pyInt_eq_floor (q : ℚ) (h : 0 ≤ q) : pyInt q = ⌊q⌋ := by
  unfold pyInt
  rw [Rat.floor_def]
  exact Int.tdiv_eq_ediv (Rat.num_nonneg.mpr h) (Int.ofNat_nonneg q.den)

/- ------------------------------------------------------------------ -/
/- config.py (lines 118-134): runtime average initialization          -/
/- ------------------------------------------------------------------ -/

/-- The successive values taken by `config['runtime']['average']` during
config loading: the value possibly present in the config file, the value
assigned at config.py line 121 from `AVERAGE_DOWNLOAD_TIME` (default 30),
and the value after the unconditional assignment at config.py line 134. -/
structure RuntimeAverageTrace where
  afterFile : Option ℤ
  afterEnv : ℤ
  final : ℤ
deriving DecidableEq, Repr

/-- Embedding of the `config['runtime']['average']` assignments in
config.py: line 121 overwrites any config-file value with
`int(os.environ.get('AVERAGE_DOWNLOAD_TIME', '30'))`, and line 134
unconditionally assigns the literal 30. -/
def load_runtime_average (fileAverage envAverage : Option ℤ) : RuntimeAverageTrace :=
  { afterFile := fileAverage
    afterEnv := envAverage.getD 30
    final := 30 }

/- ------------------------------------------------------------------ -/
/- controllers.calculate_estimated_time (lines 169-189)               -/
/- ------------------------------------------------------------------ -/

/-- Message for a negative remaining-time estimate. -/
def msgLongerThanExpected : String :=
  "It seems that the retrieval is taking a bit more time than expected. Please stand by..."

/-- Message for a remaining-time estimate below 10 seconds. -/
def msgLessThanTenSeconds : String :=
  "Estimated remaining time: less than 10 seconds"

/-- Message for a remaining-time estimate of 10 to 59 seconds. -/
def msgSeconds (r : ℤ) : String :=
  s!"Estimated remaining time: {r} seconds"

/-- Message for a remaining-time estimate of at least one minute. -/
def msgMinutesSeconds (m s : ℤ) : String :=
  s!"Estimated remaining time: {m} minutes, {s} seconds"

/-- Embedding of `controllers.calculate_estimated_time`.  `now` is the
UTC timestamp the Python code reads inside the function, passed
explicitly here.  `estimated_remaining` is truncated with `int(...)`
exactly as in the source. -/
def calculate_estimated_time (now start_time : ℚ) (nb_replies : Option ℕ)
    (average : ℚ) : Option String :=
  match nb_replies with
  | none => none
  | some n =>
    let elapsed := now - start_time
    let estimated_total := (n : ℚ) / average
    let estimated_remaining := pyInt (estimated_total - elapsed)
    if estimated_remaining < 0 then
      some msgLongerThanExpected
    else if estimated_remaining < 10 then
      some msgLessThanTenSeconds
    else if estimated_remaining < 60 then
      some (msgSeconds estimated_remaining)
    else
      let m := estimated_remaining / 60
      let s := estimated_remaining % 60
      some (msgMinutesSeconds m s)

/- ------------------------------------------------------------------ -/
/- controllers.error_message (lines 200-216)                          -/
/- ------------------------------------------------------------------ -/

/-- Embedding of `controllers.error_message`: the fixed lookup table
from a `failure_reason` to a user-facing message.  `project` is
`config['app']['project']`.  A `None` reason or an unrecognized reason
falls through every `elif` and yields `None`. -/
def error_message (reason : Option String) (project : String) : Option String :=
  if reason = some "SUBMISSION_NOT_FOUND" then
    some "The submission could not be found. Please check if the submission (still) exists."
  else if reason = some "BAD_AUTHENTICATION" then
    some ("It looks like your Reddit account does no longer allow Reddit Archiver to read Reddit on its behalf. Please try to allow it again by clicking here. If it still does not work, please <a href=\"" ++ project ++ "\" target=\"_blank\">open an issue on the GitHub</a>.")
  else if reason = some "BAD_URL" then
    some "The link you provided is not a valid Reddit submission. Please check it and submit it again."
  else if reason = some "BAD_PERMISSIONS" then
    some ("Your request cannot be completed because of an issue in the server. Please contact the administrator and tell them to look in the error logs. If you are the administrator and cannot resolve the problem, please <a href=\"" ++ project ++ "\" target=\"_blank\">open an issue on the GitHub</a>.")
  else if reason = some "UNKNOWN" then
    some ("Your request cannot be completed because of an issue in the server. Please contact the administrator and tell them to look in the error logs. If you are the administrator and cannot resolve the problem, please <a href=\"" ++ project ++ "\" target=\"_blank\">open an issue on the GitHub</a>.")
  else
    none

/- ------------------------------------------------------------------ -/
/- controllers.status (lines 150-166)                                 -/
/- ------------------------------------------------------------------ -/

/-- The four job statuses of the data model (spec section 3); the status
column of a job record always holds one of these values. -/
inductive JobStatus where
  | ongoing
  | success
  | failure
  | notfound
deriving DecidableEq, Repr

/-- The string stored in the status column for each `JobStatus`. -/
def JobStatus.toStr : JobStatus → String
  | .ongoing => "ongoing"
  | .success => "success"
  | .failure => "failure"
  | .notfound => "notfound"

/-- A job record as read back by `models.read_job`: the fields
`controllers.status` consumes. -/
structure JobRecord where
  status : JobStatus
  failure_reason : Option String
  started_at : ℚ
  nb_replies : Option ℕ
deriving DecidableEq, Repr

/-- Embedding of `controllers.status`: the serialized payload is the
association list of JSON keys (in `json.dumps` dict order) to their
values, and the result code is selected by the `if`/`elif` chain. -/
def status (job : JobRecord) (now average : ℚ) (project : String) :
    ℕ × List (String × Option String) :=
  let data : List (String × Option String) :=
    [("status", some job.status.toStr),
     ("error_message", error_message job.failure_reason project),
     ("eta", calculate_estimated_time now job.started_at job.nb_replies average)]
  let code : ℕ :=
    match job.status with
    | .ongoing => 409
    | .failure => 404
    | .success => 200
    | .notfound => 404
  (code, data)

/- ------------------------------------------------------------------ -/
/- controllers.calculate_average_eta (lines 239-250)                  -/
/- ------------------------------------------------------------------ -/

/-- Embedding of `controllers.calculate_average_eta`: `average` is the
value returned by the Datastore collaborator `models.calculate_average_eta`
(a float or null per the spec contract); the result is the new value
written into `config['runtime']['average']` (30 on null history, else
`int(average)`). -/
def calculate_average_eta (average : Option ℚ) : ℤ :=
  match average with
  | none => 30
  | some a => pyInt a

/- ------------------------------------------------------------------ -/
/- controllers.get_oauth_redirect_uri (lines 14-43)                   -/
/- ------------------------------------------------------------------ -/

/-- The whitespace characters removed by Python `str.strip()`. -/
def isPySpace (c : Char) : Bool :=
  c = ' ' ∨ c = '\t' ∨ c = '\n' ∨ c = '\r' ∨ c = '\x0b' ∨ c = '\x0c'

/-- Python `str.strip()`: remove leading and trailing whitespace. -/
def pyStrip (l : List Char) : List Char :=
  ((l.dropWhile isPySpace).reverse.dropWhile isPySpace).reverse

/-- The `while app_url.endswith('/')` loop of
`controllers.get_oauth_redirect_uri`: remove every trailing slash. -/
def rstripSlashes (l : List Char) : List Char :=
  (l.reverse.dropWhile (fun c => c = '/')).reverse

/-- Embedding of `controllers.get_oauth_redirect_uri`.  The input is
`config['app']['url']` (`none` when the key is missing).  The function
strips whitespace, validates/rewrites the scheme, strips trailing
slashes and appends `/token`; a scheme that is neither `https` nor
`http` raises `ValueError`. -/
def get_oauth_redirect_uri (appUrl : Option (List Char)) : Except String (List Char) :=
  match appUrl with
  | none => .error "Missing app.url configuration"
  | some raw =>
    let app_url := pyStrip raw
    if "https://".data.isPrefixOf app_url then
      .ok (rstripSlashes app_url ++ "/token".data)
    else if "http://".data.isPrefixOf app_url then
      let upgraded := "https://".data ++ app_url.drop 7
      .ok (rstripSlashes upgraded ++ "/token".data)
    else
      .error "Invalid URL: must use HTTPS protocol"

/- ------------------------------------------------------------------ -/
/- app.token (src/app.py lines 80-125)                                -/
/- ------------------------------------------------------------------ -/

/-- Result of the `/token` route handler: the HTTP status code, whether
the code-for-token exchange (`controllers.get_refresh_token`) was
invoked, and the session-token store after the request. -/
structure TokenHandlerResult where
  code : ℕ
  exchangeCalled : Bool
  tokens : List (Option String × String)
deriving DecidableEq, Repr

/-- Embedding of the `token` route of src/app.py.  `state` is the
`state` query parameter, `currentCookie` the `redditarchive_id` request
cookie (both absent values are `none`, and Python compares them with
`!=`, so two absent values are equal).  `exchange` is the outcome of
`controllers.get_refresh_token()` if it were invoked; `tokens` models
the datastore rows written by `models.create_token`. -/
def token (state currentCookie : Option String) (exchange : Except String String)
    (tokens : List (Option String × String)) : TokenHandlerResult :=
  if state ≠ currentCookie then
    { code := 400, exchangeCalled := false, tokens := tokens }
  else
    match exchange with
    | .error _ => { code := 400, exchangeCalled := true, tokens := tokens }
    | .ok refresh_token =>
      { code := 303, exchangeCalled := true,
        tokens := tokens ++ [(state, refresh_token)] }

/- ------------------------------------------------------------------ -/
/- controllers.request (lines 46-67)                                  -/
/- ------------------------------------------------------------------ -/

/-- Base-36 characters of a Reddit submission id (lowercase letters and
digits). -/
def isBase36 (c : Char) : Bool := c.isDigit ∨ (c.isLower ∧ c.isAlpha)

/-- Scan a list for the first occurrence of `marker` and return what
follows it, or `none` when the marker does not occur. -/
def dropThroughMarker (marker : List Char) : List Char → Option (List Char)
  | [] => none
  | c :: rest =>
    if marker.isPrefixOf (c :: rest) then
      some ((c :: rest).drop marker.length)
    else
      dropThroughMarker marker rest

/-- Modelled from the spec: `utils.extract_id` is not under src/ (only
its caller `controllers.request` is).  Spec section 4.1: it extracts a
normalized submission identifier from free-form user input, a URL or a
raw id, and fails (returns `none`) when no valid identifier can be
extracted.  A URL yields the base-36 run following `/comments/`; any
other input is accepted exactly when it is a nonempty base-36 id. -/
def extract_id (input : Option (List Char)) : Option (List Char) :=
  match input with
  | none => none
  | some raw =>
    let s := pyStrip raw
    match dropThroughMarker "/comments/".data s with
    | some rest =>
      let ident := rest.takeWhile isBase36
      if ident.isEmpty then none else some ident
    | none =>
      if s.isEmpty then none
      else if s.all isBase36 then some s else none

/-- A stored job row, as written at creation time. -/
structure StoredJob where
  id : String
  submission_id : List Char
  cookie : String
  status : JobStatus
  started_at : ℚ
deriving DecidableEq, Repr

/-- Modelled from the spec: `models.create_job` is not under src/.
Spec sections 4.1 and 6: `createJob(id, submissionId, sessionToken)`
writes a new Job record with `status = ongoing` and `started_at = now`. -/
def create_job (db : List StoredJob) (job_id : String) (submission_id : List Char)
    (cookie : String) (now : ℚ) : List StoredJob :=
  db ++ [{ id := job_id, submission_id := submission_id, cookie := cookie,
           status := .ongoing, started_at := now }]

/-- A worker thread dispatched by `controllers.request`: the entry
point `downloader.main` receives the argument tuple
`(submission_id, token, job_id)`; `daemon` and `name` are the thread
attributes set before `start()`. -/
structure WorkerDispatch where
  arg_submission_id : List Char
  arg_token : String
  arg_job_id : String
  daemon : Bool
  name : String
deriving DecidableEq, Repr

/-- Embedding of `controllers.request`.  `submission` is the
`submission-id` form field, `job_id` the generated
`secrets.token_urlsafe(16)` value, `cookie` and `tok` the session cookie
and Reddit token from `flask.g`.  The result is the raised/returned
value together with the job store and the list of dispatched workers
after the call. -/
def request (submission : Option (List Char)) (job_id cookie tok : String)
    (now : ℚ) (db : List StoredJob) (workers : List WorkerDispatch) :
    Except String String × List StoredJob × List WorkerDispatch :=
  match extract_id submission with
  | none => (.error "BAD_URL", db, workers)
  | some submission_id =>
    let db' := create_job db job_id submission_id cookie now
    let w : WorkerDispatch :=
      { arg_submission_id := submission_id, arg_token := tok,
        arg_job_id := job_id, daemon := true, name := job_id }
    (.ok job_id, db', workers ++ [w])

/- ------------------------------------------------------------------ -/
/- controllers.cleanup_downloads (lines 219-228)                      -/
/- ------------------------------------------------------------------ -/

/-- One file of the output store: its name and last-modified time. -/
structure OutputFile where
  name : String
  mtime : ℚ
deriving DecidableEq, Repr

/-- The `for file in files` loop of `controllers.cleanup_downloads`.
`failing` is the set of file names whose `os.remove` raises `OSError`;
an exception propagates out of the loop immediately (there is no
`try`/`except` in the source), so the remaining files are not visited.
On normal termination the result is the list of removed file names. -/
def cleanupLoop (now : ℚ) (failing : List String) :
    List OutputFile → List String → Except String (List String)
  | [], removed => .ok removed
  | f :: rest, removed =>
    if now - f.mtime > 86400 then
      if f.name ∈ failing then
        .error f.name
      else
        cleanupLoop now failing rest (removed ++ [f.name])
    else
      cleanupLoop now failing rest removed

/-- Embedding of `controllers.cleanup_downloads`: sweep every listed
file, removing those strictly older than 86400 seconds. -/
def cleanup_downloads (now : ℚ) (files : List OutputFile)
    (failing : List String) : Except String (List String) :=
  cleanupLoop now failing files []

/-- Claim C1: for a known reply count and positive throughput,
`calculate_estimated_time` computes the remaining time
`nb_replies / average - (now - start_time)` (truncated to an integer by
Python `int`, as the spec's integer `divmod` presupposes) and selects
the message by the exact thresholds; a `None` reply count yields `None`. -/
theorem calculate_estimated_time_spec (now start_time average : ℚ) (n : ℕ)
    (havg : 0 < average) :
    calculate_estimated_time now start_time none average = none ∧
    (pyInt ((n : ℚ) / average - (now - start_time)) < 0 →
      calculate_estimated_time now start_time (some n) average =
        some msgLongerThanExpected) ∧
    (0 ≤ pyInt ((n : ℚ) / average - (now - start_time)) →
      pyInt ((n : ℚ) / average - (now - start_time)) < 10 →
      calculate_estimated_time now start_time (some n) average =
        some msgLessThanTenSeconds) ∧
    (10 ≤ pyInt ((n : ℚ) / average - (now - start_time)) →
      pyInt ((n : ℚ) / average - (now - start_time)) < 60 →
      calculate_estimated_time now start_time (some n) average =
        some (msgSeconds (pyInt ((n : ℚ) / average - (now - start_time))))) ∧
    (60 ≤ pyInt ((n : ℚ) / average - (now - start_time)) →
      calculate_estimated_time now start_time (some n) average =
        some (msgMinutesSeconds (pyInt ((n : ℚ) / average - (now - start_time)) / 60)
          (pyInt ((n : ℚ) / average - (now - start_time)) % 60))) := by
  have key : calculate_estimated_time now start_time (some n) average =
      if pyInt ((n : ℚ) / average - (now - start_time)) < 0 then
        some msgLongerThanExpected
      else if pyInt ((n : ℚ) / average - (now - start_time)) < 10 then
        some msgLessThanTenSeconds
      else if pyInt ((n : ℚ) / average - (now - start_time)) < 60 then
        some (msgSeconds (pyInt ((n : ℚ) / average - (now - start_time))))
      else
        some (msgMinutesSeconds (pyInt ((n : ℚ) / average - (now - start_time)) / 60)
          (pyInt ((n : ℚ) / average - (now - start_time)) % 60)) := rfl
  refine ⟨rfl, fun h0 => ?_, fun h0 h1 => ?_, fun h0 h1 => ?_, fun h0 => ?_⟩
  · rw [key, if_pos h0]
  · rw [key, if_neg (by omega), if_pos h1]
  · rw [key, if_neg (by omega), if_neg (by omega), if_pos h1]
  · rw [key, if_neg (by omega), if_neg (by omega), if_neg (by omega)]

/-- Witness for C1, the spec's own example: 100 replies, throughput 10,
5 seconds elapsed gives a 5-second estimate and the
less-than-10-seconds message. -/
theorem calculate_estimated_time_spec_witness :
    (0 : ℚ) < 10 ∧
    calculate_estimated_time 5 0 (some 100) 10 = some msgLessThanTenSeconds := by
  have harg : ((100 : ℕ) : ℚ) / 10 - ((5 : ℚ) - 0) = 5 := by norm_num
  refine ⟨by norm_num, ?_⟩
  refine (calculate_estimated_time_spec 5 0 10 100 (by norm_num)).2.2.1 ?_ ?_
  · rw [harg]; decide
  · rw [harg]; decide

/-- Claim C2: an OAuth callback whose state parameter differs from the
session's own cookie is answered with HTTP 400, the code-for-token
exchange is not invoked, and the token store is unchanged. -/
theorem token_state_mismatch (state currentCookie : Option String)
    (exchange : Except String String) (tokens : List (Option String × String))
    (h : state ≠ currentCookie) :
    token state currentCookie exchange tokens =
      { code := 400, exchangeCalled := false, tokens := tokens } := by
  unfold token
  rw [if_pos h]

/-- Witness for C2 at a concrete mismatched state/cookie pair. -/
theorem token_state_mismatch_witness :
    some "state-a" ≠ some "cookie-b" ∧
    token (some "state-a") (some "cookie-b") (.ok "refresh") [] =
      { code := 400, exchangeCalled := false, tokens := [] } :=
  ⟨by decide, token_state_mismatch _ _ _ _ (by decide)⟩

/-- Claim C3: when no valid submission identifier can be extracted from
the input, `request` raises `ValueError("BAD_URL")` before any store
write: the job store and the set of dispatched workers are unchanged. -/
theorem request_invalid_input (submission : Option (List Char))
    (job_id cookie tok : String) (now : ℚ) (db : List StoredJob)
    (workers : List WorkerDispatch) (h : extract_id submission = none) :
    request submission job_id cookie tok now db workers =
      (.error "BAD_URL", db, workers) := by
  unfold request
  rw [h]

/-- Witness for C3 at a concrete invalid input. -/
theorem request_invalid_input_witness :
    extract_id (some ("not a reddit url".data)) = none ∧
    request (some ("not a reddit url".data)) "jobid" "cookie" "tok" 0 [] [] =
      (.error "BAD_URL", [], []) :=
  ⟨by decide, request_invalid_input _ _ _ _ _ _ _ (by decide)⟩

/-- Claim C9: on a valid submission input, `request` returns the job id
together with exactly one dispatched worker, a daemon (detached) thread
named after the job whose entry point receives the argument tuple
`(submission_id, token, job_id)`; the returned value is the job id
itself, fixed before the worker runs (the worker appears only as
pending dispatch data, so its outcome cannot reach the caller). -/
theorem request_valid_input_dispatch (submission : Option (List Char))
    (sid : List Char) (job_id cookie tok : String) (now : ℚ)
    (db : List StoredJob) (workers : List WorkerDispatch)
    (h : extract_id submission = some sid) :
    request submission job_id cookie tok now db workers =
      (.ok job_id, create_job db job_id sid cookie now,
        workers ++ [{ arg_submission_id := sid, arg_token := tok,
                      arg_job_id := job_id, daemon := true, name := job_id }]) := by
  unfold request
  rw [h]

/-- Witness for C9 at a concrete valid raw submission id. -/
theorem request_valid_input_dispatch_witness :
    extract_id (some ("abc123".data)) = some ("abc123".data) ∧
    request (some ("abc123".data)) "J" "C" "T" 0 [] [] =
      (.ok "J", create_job [] "J" ("abc123".data) "C" 0,
        [{ arg_submission_id := "abc123".data, arg_token := "T",
           arg_job_id := "J", daemon := true, name := "J" }]) :=
  ⟨by decide, request_valid_input_dispatch _ _ _ _ _ _ _ _ (by decide)⟩

/-- Removing any number of trailing slashes appended to a list leaves
`rstripSlashes` unchanged. -/
theorem rstripSlashes_append_replicate (l : List Char) (k : ℕ) :
    rstripSlashes (l ++ List.replicate k '/') = rstripSlashes l := by
  unfold rstripSlashes
  rw [List.reverse_append, List.reverse_replicate]
  congr 1
  induction k with
  | zero => rfl
  | succ n ih =>
    rw [List.replicate_succ, List.cons_append, List.dropWhile_cons]
    simp [ih]

/-- `pyStrip` is the identity on a list with no whitespace at either end
(in particular on one with no whitespace at all). -/
theorem pyStrip_of_no_space (l : List Char) (h : ∀ c ∈ l, isPySpace c = false) :
    pyStrip l = l := by
  unfold pyStrip
  have h1 : l.dropWhile isPySpace = l := by
    cases l with
    | nil => rfl
    | cons c rest =>
      rw [List.dropWhile_cons, h c (List.mem_cons_self c rest)]
      simp
  rw [h1]
  have h2 : l.reverse.dropWhile isPySpace = l.reverse := by
    cases hr : l.reverse with
    | nil => rfl
    | cons c rest =>
      have hc : c ∈ l := by
        have : c ∈ l.reverse := hr ▸ List.mem_cons_self c rest
        exact List.mem_reverse.mp this
      rw [List.dropWhile_cons, h c hc]
      simp
  rw [h2, List.reverse_reverse]

/-- Claim C4: the redirect URI is the configured base URL with all
trailing slashes stripped and `/token` appended; an `http://` scheme is
rewritten to `https://`; any other non-https scheme raises; and the
construction is invariant under repeated trailing slashes, mapping
`https://example.com///` (indeed `https://example.com` followed by any
number of slashes) to `https://example.com/token`. -/
theorem get_oauth_redirect_uri_spec :
    (∀ url : List Char, "https://".data.isPrefixOf (pyStrip url) = true →
      get_oauth_redirect_uri (some url) =
        .ok (rstripSlashes (pyStrip url) ++ "/token".data)) ∧
    (∀ url : List Char, "https://".data.isPrefixOf (pyStrip url) = false →
      "http://".data.isPrefixOf (pyStrip url) = true →
      get_oauth_redirect_uri (some url) =
        .ok (rstripSlashes ("https://".data ++ (pyStrip url).drop 7) ++ "/token".data)) ∧
    (∀ url : List Char, "https://".data.isPrefixOf (pyStrip url) = false →
      "http://".data.isPrefixOf (pyStrip url) = false →
      get_oauth_redirect_uri (some url) =
        .error "Invalid URL: must use HTTPS protocol") ∧
    (∀ k : ℕ,
      get_oauth_redirect_uri
          (some ("https://example.com".data ++ List.replicate k '/')) =
        .ok ("https://example.com/token".data)) := by
  have key : ∀ url : List Char, get_oauth_redirect_uri (some url) =
      (if "https://".data.isPrefixOf (pyStrip url) then
        .ok (rstripSlashes (pyStrip url) ++ "/token".data)
      else if "http://".data.isPrefixOf (pyStrip url) then
        .ok (rstripSlashes ("https://".data ++ (pyStrip url).drop 7) ++ "/token".data)
      else .error "Invalid URL: must use HTTPS protocol") := fun url => rfl
  refine ⟨fun url h => ?_, fun url h1 h2 => ?_, fun url h1 h2 => ?_, fun k => ?_⟩
  · rw [key, if_pos h]
  · rw [key, if_neg (by simp [h1]), if_pos h2]
  · rw [key, if_neg (by simp [h1]), if_neg (by simp [h2])]
  · have hns : ∀ c ∈ "https://example.com".data ++ List.replicate k '/',
        isPySpace c = false := by
      intro c hc
      rcases List.mem_append.mp hc with hl | hr
      · exact (by decide : ∀ c ∈ "https://example.com".data, isPySpace c = false) c hl
      · have hc' : c = '/' := List.eq_of_mem_replicate hr
        rw [hc']
        decide
    have hstrip : pyStrip ("https://example.com".data ++ List.replicate k '/') =
        "https://example.com".data ++ List.replicate k '/' :=
      pyStrip_of_no_space _ hns
    have hpre : ("https://".data).isPrefixOf
        ("https://example.com".data ++ List.replicate k '/') = true := by
      rw [List.isPrefixOf_iff_prefix]
      exact List.IsPrefix.trans (by decide) (List.prefix_append _ _)
    rw [key, hstrip, if_pos hpre, rstripSlashes_append_replicate]
    exact congrArg Except.ok (by decide)

/-- Witness for C4 at the spec's concrete example
`https://example.com///`. -/
theorem get_oauth_redirect_uri_spec_witness :
    "https://".data.isPrefixOf (pyStrip ("https://example.com///".data)) = true ∧
    get_oauth_redirect_uri (some ("https://example.com///".data)) =
      .ok ("https://example.com/token".data) := by
  refine ⟨by decide, ?_⟩
  rw [get_oauth_redirect_uri_spec.1 ("https://example.com///".data) (by decide)]
  exact congrArg Except.ok (by decide)

/-- Claim C5: `status` maps `ongoing` to 409, `success` to 200,
`failure` to 404 and `notfound` to 404, and its payload holds exactly
the keys `status`, `error_message` (the fixed lookup-table message,
null when the reason is absent or unrecognized) and `eta` (null when
not computable). -/
theorem status_spec (job : JobRecord) (now average : ℚ) (project : String) :
    (status job now average project).2.map Prod.fst =
      ["status", "error_message", "eta"] ∧
    (status job now average project).2 =
      [("status", some job.status.toStr),
       ("error_message", error_message job.failure_reason project),
       ("eta", calculate_estimated_time now job.started_at job.nb_replies average)] ∧
    (job.status = .ongoing → (status job now average project).1 = 409) ∧
    (job.status = .success → (status job now average project).1 = 200) ∧
    (job.status = .failure → (status job now average project).1 = 404) ∧
    (job.status = .notfound → (status job now average project).1 = 404) ∧
    (job.failure_reason = none → error_message job.failure_reason project = none) ∧
    (∀ r : String, r ≠ "SUBMISSION_NOT_FOUND" → r ≠ "BAD_AUTHENTICATION" →
      r ≠ "BAD_URL" → r ≠ "BAD_PERMISSIONS" → r ≠ "UNKNOWN" →
      error_message (some r) project = none) ∧
    (job.nb_replies = none →
      calculate_estimated_time now job.started_at job.nb_replies average = none) := by
  refine ⟨rfl, rfl, fun h => ?_, fun h => ?_, fun h => ?_, fun h => ?_,
    fun h => ?_, fun r h1 h2 h3 h4 h5 => ?_, fun h => ?_⟩
  · simp [status, h]
  · simp [status, h]
  · simp [status, h]
  · simp [status, h]
  · rw [h]; rfl
  · simp [error_message, h1, h2, h3, h4, h5]
  · rw [h]; rfl

/-- Witness for C5 on a concrete failed job with an unrecognized
failure reason and no reply count. -/
theorem status_spec_witness :
    (JobRecord.mk .failure (some "WEIRD") 0 none).status = JobStatus.failure ∧
    (status (JobRecord.mk .failure (some "WEIRD") 0 none) 0 30 "proj").1 = 404 := by
  refine ⟨rfl, ?_⟩
  exact (status_spec (JobRecord.mk .failure (some "WEIRD") 0 none) 0 30 "proj").2.2.2.2.1 rfl

/-- Counterexample to C6 as stated: a Datastore average of 1/2 (allowed
by the collaborator contract, which only promises a float or null)
makes the recalibration write int(1/2) = 0 into the throughput scalar,
so the recalibration can set the scalar to zero. -/
theorem calculate_average_eta_zero_cex :
    calculate_average_eta (some (1 / 2 : ℚ)) = 0 := by
  show pyInt (1 / 2 : ℚ) = 0
  rw [pyInt_eq_floor _ (by norm_num)]
  rw [Int.floor_eq_zero_iff]
  constructor <;> norm_num

/-- Claim C6 (amended): with a null historical average the scalar is
set to the fixed default 30, so the recalibration never leaves it null;
with a non-null average it is set to `int(average)`, which is at least
1 whenever the average is at least 1 but is 0 when the average lies in
[0, 1). -/
theorem calculate_average_eta_amended :
    calculate_average_eta none = 30 ∧
    (∀ a : ℚ, calculate_average_eta (some a) = pyInt a) ∧
    (∀ a : ℚ, 1 ≤ a → 1 ≤ calculate_average_eta (some a)) ∧
    (∀ a : ℚ, 0 ≤ a → a < 1 → calculate_average_eta (some a) = 0) := by
  refine ⟨rfl, fun a => rfl, fun a ha => ?_, fun a h0 h1 => ?_⟩
  · show (1 : ℤ) ≤ pyInt a
    rw [pyInt_eq_floor a (by linarith)]
    exact Int.le_floor.mpr (by exact_mod_cast ha)
  · show pyInt a = 0
    rw [pyInt_eq_floor a h0]
    rw [Int.floor_eq_zero_iff]
    exact ⟨h0, h1⟩

/-- Witness for the amended C6: a historical average of 45 seconds per
reply yields a positive scalar. -/
theorem calculate_average_eta_amended_witness :
    (1 : ℚ) ≤ 45 ∧ 1 ≤ calculate_average_eta (some (45 : ℚ)) :=
  ⟨by norm_num, calculate_average_eta_amended.2.2.1 45 (by norm_num)⟩

/-- Claim C7 (evaluation at the failing input): with two files both
older than 24 hours and the deletion of the first raising `OSError`,
the sweep propagates the exception and never attempts the second file;
the code has no per-file isolation. -/
theorem cleanup_downloads_aborts_on_failure :
    cleanup_downloads 100000 [OutputFile.mk "stale-a" 0, OutputFile.mk "stale-b" 0]
      ["stale-a"] = .error "stale-a" := by
  norm_num [cleanup_downloads, cleanupLoop]

/-- With no failing deletion, the sweep removes exactly the files
strictly older than 86400 seconds, in order. -/
theorem cleanupLoop_no_failing (now : ℚ) (files : List OutputFile)
    (acc : List String) :
    cleanupLoop now [] files acc =
      .ok (acc ++ (files.filter fun f => decide (86400 < now - f.mtime)).map
        fun f => f.name) := by
  induction files generalizing acc with
  | nil => simp [cleanupLoop]
  | cons f rest ih =>
    by_cases h : now - f.mtime > 86400
    · rw [cleanupLoop, if_pos h, if_neg (List.not_mem_nil f.name), ih]
      simp [List.filter_cons, h]
    · rw [cleanupLoop, if_neg h, ih]
      simp [List.filter_cons, h]

/-- Claim C8: the retention sweep deletes a file exactly when its age
`now - mtime` strictly exceeds 86400 seconds; a file aged 86401 seconds
is deleted and one aged 86399 seconds is retained. -/
theorem cleanup_downloads_retention :
    (∀ (now : ℚ) (files : List OutputFile),
      cleanup_downloads now files [] =
        .ok ((files.filter fun f => decide (86400 < now - f.mtime)).map
          fun f => f.name)) ∧
    cleanup_downloads 86401 [OutputFile.mk "artifact" 0] [] = .ok ["artifact"] ∧
    cleanup_downloads 86399 [OutputFile.mk "artifact" 0] [] = .ok [] := by
  refine ⟨fun now files => ?_, ?_, ?_⟩
  · simpa using cleanupLoop_no_failing now files []
  · norm_num [cleanup_downloads, cleanupLoop]
  · norm_num [cleanup_downloads, cleanupLoop]

/-- Claim C10: at the end of configuration loading the runtime average
is always 30: the unconditional assignment at config.py line 134
overwrites the value derived from `AVERAGE_DOWNLOAD_TIME` at line 121
(and any config-file value), as the trace at a concrete environment
value 99 shows. -/
theorem load_runtime_average_final_30 :
    (∀ fileAverage envAverage : Option ℤ,
      (load_runtime_average fileAverage envAverage).final = 30) ∧
    (load_runtime_average (some 7) (some 99)).afterEnv = 99 ∧
    (load_runtime_average (some 7) (some 99)).final = 30 :=
  ⟨fun _ _ => rfl, rfl, rfl⟩
